import Mathlib

/-!
Verification development for the ingestion engine in src/engine/main.py.

The live module exposes a Flask handler download_file_from_http that
fetches a remote file, writes it to a local temp file, classifies it by
extension, checks/starts a per-category worker container, uploads the
file to MinIO and removes the temp file.  We embed that flow shallowly:
external outcomes (HTTP fetch, local write, docker lookup, docker run,
MinIO upload, local remove) are oracle fields of a World record, and the
observable side effects are collected in an effect trace.
-/

namespace Engine

/-- Python os.path.basename for POSIX paths: the substring after the last
slash (the whole string when no slash occurs). -/
def basename (p : String) : String :=
  ⟨((p.data.reverse.takeWhile (fun c => c != '/')).reverse)⟩

/-- The extension component of Python os.path.splitext, applied to a
basename (no slashes): the substring from the last dot on, except that a
name consisting only of leading dots before its last dot (such as ".log"
or "..") has extension "". -/
def splitext_ext (s : String) : String :=
  let cs := s.data
  if cs.any (fun c => c == '.') then
    let tail := cs.reverse.takeWhile (fun c => c != '.')
    let dotIdx := cs.length - tail.length - 1
    if (cs.take dotIdx).any (fun c => c != '.') then ⟨cs.drop dotIdx⟩
    else ""
  else ""

/-- Python str.lower on the extension strings compared here (ASCII). -/
def pyLower (s : String) : String := ⟨s.data.map Char.toLower⟩

/-- Lines 162-170 of download_file_from_http: dispatch the lowered
extension of the local file name to the MinIO target folder. -/
def target_folder_of (file_name : String) : String :=
  let file_extension := pyLower (splitext_ext file_name)
  if file_extension = ".pcap" then "ip"
  else if file_extension = ".log" then "nlp"
  else if file_extension = ".csv" then "ae"
  else "others"

/-- The category enumeration of the data model; the code spells these
values as the folder strings "ip", "nlp", "ae", "others". -/
inductive Category
  | networkCapture
  | textLog
  | tabular
  | unclassified
deriving DecidableEq, Repr

/-- The folder string the code uses for each category. -/
def folderName : Category → String
  | .networkCapture => "ip"
  | .textLog => "nlp"
  | .tabular => "ae"
  | .unclassified => "others"

/-- The classification of lines 162-170 read at the category level. -/
def classify (file_name : String) : Category :=
  let file_extension := pyLower (splitext_ext file_name)
  if file_extension = ".pcap" then .networkCapture
  else if file_extension = ".log" then .textLog
  else if file_extension = ".csv" then .tabular
  else .unclassified

/-- Line 142: container_mapping as a partial lookup (dict.get). -/
def container_mapping (k : String) : Option String :=
  if k = "ip" then some "classic"
  else if k = "nlp" then some "nlp"
  else if k = "ae" then some "autoencoders"
  else none

theorem classify_folder (f : String) :
    target_folder_of f = folderName (classify f) := by
  unfold target_folder_of classify folderName
  dsimp only
  split_ifs <;> rfl

/-- Line 32: the base URL prepended to the requested path. -/
def root_url : String := "http://localhost:8880"

/-- The Python exception classes that can arise in this flow.  Only the
class matters for control flow: the handler catches IOError (= OSError,
of which requests exceptions are subclasses), is_container_running
catches docker NotFound, start_anoncontainer catches Exception. -/
inductive PyExc
  | requestException
  | ioError
  | connectionError
  | dockerAPIError
  | s3Error
  | nameError
deriving DecidableEq, Repr

/-- Whether the exception class is a subclass of IOError (= OSError in
Python 3; requests exceptions derive from IOError, docker APIError and
minio S3Error do not). -/
def isIOError : PyExc → Bool
  | .requestException => true
  | .ioError => true
  | .connectionError => true
  | _ => false

/-- Observable side effects of one request, in order. -/
inductive Effect
  | httpGet (url : String)
  | writeLocal (file_name : String)
  | dockerGet (container_name : String)
  | dockerRun (image container_name : String)
  | putObject (bucket key : String) (ok : Bool)
  | removeLocal (file_name : String)
deriving DecidableEq, Repr

/-- Outcome of requests.get plus raise_for_status. -/
inductive FetchOutcome
  | raised
  | status (code : Nat)
deriving DecidableEq, Repr

/-- Outcome of docker_client.containers.get for the queried name. -/
inductive LookupOutcome
  | found (status : String)
  | notFound
  | raised (e : PyExc)
deriving DecidableEq, Repr

/-- Oracle for the outcomes of the external calls one request makes. -/
structure World where
  fetch : FetchOutcome
  writeOk : Bool
  lookup : LookupOutcome
  runOk : Bool
  upload : Option PyExc
  removeOk : Bool
deriving DecidableEq, Repr

/-- An opaque container handle. -/
structure Handle
deriving DecidableEq, Repr

/-- The module-level containers dict, keys to optional handles. -/
abbrev ContainersDict := List (String × Option Handle)

/-- Lines 37-40: initial registry, all three keys mapped to Python None. -/
def containers_init : ContainersDict :=
  [("nlp", none), ("classic", none), ("autoencoders", none)]

/-- Dict assignment d[k] = v. -/
def dictSet (cs : ContainersDict) (k : String) (v : Option Handle) :
    ContainersDict :=
  if (cs.map Prod.fst).contains k then
    cs.map (fun q => if q.1 = k then (k, v) else q)
  else cs ++ [(k, v)]

/-- Python substring test (pat in s). -/
def strContains (s pat : String) : Bool :=
  s.data.tails.any (fun t => pat.data.isPrefixOf t)

/-- Lines 87-93 of start_anoncontainer: image selection from the name. -/
def imageFor (aname : String) : String :=
  let image := "ubuntu:latest"
  let image := if strContains aname "nlp" then "thoth/nlp:latest"
    else if strContains aname "autoencoders" then "thoth/ae:latest"
    else image
  if strContains aname "classic" then "thoth/classic:latest" else image

/-- Line 100 evaluates the identifier name, which is unbound in the
module (the parameter is aname; the commented sibling at line 432 writes
containers[aname]); so the assignment raises NameError. -/
def globalName : Except PyExc String := .error .nameError

/-- Lines 80-102: start_anoncontainer.  Issues one containers.run
request; on success the assignment containers[name] = container raises
NameError (unbound name), which the blanket except catches and prints,
so the registry is returned unchanged; on run failure the exception is
likewise caught and printed. -/
def start_anoncontainer (runOk : Bool) (aname : String)
    (cs : ContainersDict) : ContainersDict × List Effect :=
  let image := imageFor aname
  if runOk then
    match globalName with
    | .error _ => (cs, [.dockerRun image aname])
    | .ok nm => (dictSet cs nm (some ⟨⟩), [.dockerRun image aname])
  else (cs, [.dockerRun image aname])

/-- Lines 105-119: is_container_running.  Returns ok (some b) when the
container is found (b compares its State.Status to "running"),
ok none when docker raises NotFound (caught, message printed, function
falls off the end returning Python None), and error e when the lookup
raises anything else (only NotFound is caught). -/
def is_container_running (lookup : LookupOutcome)
    (container_name : String) : Except PyExc (Option Bool) × List Effect :=
  match lookup with
  | .found status => (.ok (some (status = "running")), [.dockerGet container_name])
  | .notFound => (.ok none, [.dockerGet container_name])
  | .raised e => (.error e, [.dockerGet container_name])

/-- Result of the store step (lines 174-176). -/
inductive StoreResult
  | success (path : String)
  | raised (e : PyExc)
deriving DecidableEq, Repr

/-- Lines 174-176, the store step of the spec: fput_object then
os.remove then return the key.  On upload failure the raised exception
leaves the step (no retry, no remove); on remove failure os.remove
raises OSError (= ioError here) after the object was created. -/
def store (upload : Option PyExc) (removeOk : Bool)
    (bucket target_folder file_name : String) : StoreResult × List Effect :=
  let key := target_folder ++ "/" ++ file_name
  match upload with
  | some e => (.raised e, [.putObject bucket key false])
  | none =>
    if removeOk then
      (.success key, [.putObject bucket key true, .removeLocal file_name])
    else (.raised .ioError, [.putObject bucket key true])

/-- What the handler returns to Flask: a string, Python None (Flask
turns it into an error response), or an uncaught exception (Flask turns
it into a 500). -/
inductive Ret
  | value (s : String)
  | pyNone
  | uncaught (e : PyExc)
deriving DecidableEq, Repr

/-- The except IOError handler of lines 177-178 applied to the store
step result: IOError-class exceptions become return None, anything else
propagates out of the view function. -/
def handleIOExc : StoreResult → Ret
  | .success s => .value s
  | .raised e => if isIOError e then .pyNone else .uncaught e

/-- Lines 144-180: download_file_from_http.  Fetch, write the temp
file, dispatch the extension, check/start the worker container, upload,
remove, return the key; RequestException from the fetch and IOError
from the try block each yield return None. -/
def download_file_from_http (w : World) (cs : ContainersDict)
    (file_path : String) : Ret × ContainersDict × List Effect :=
  let url := root_url ++ file_path
  match w.fetch with
  | .raised => (.pyNone, cs, [.httpGet url])
  | .status code =>
    if code = 200 then
      let file_name := basename file_path
      if w.writeOk = false then (.pyNone, cs, [.httpGet url])
      else
        let t0 : List Effect := [.httpGet url, .writeLocal file_name]
        let target_folder := target_folder_of file_name
        match container_mapping target_folder with
        | none =>
          let (r, t1) := store w.upload w.removeOk "input" target_folder file_name
          (handleIOExc r, cs, t0 ++ t1)
        | some container_name =>
          match is_container_running w.lookup container_name with
          | (.error e, tq) =>
            if isIOError e then (.pyNone, cs, t0 ++ tq)
            else (.uncaught e, cs, t0 ++ tq)
          | (.ok st, tq) =>
            if st.getD false then
              let (r, t1) := store w.upload w.removeOk "input" target_folder file_name
              (handleIOExc r, cs, t0 ++ tq ++ t1)
            else
              let (cs2, ts) := start_anoncontainer w.runOk container_name cs
              let (r, t1) := store w.upload w.removeOk "input" target_folder file_name
              (handleIOExc r, cs2, t0 ++ tq ++ ts ++ t1)
    else (.pyNone, cs, [.httpGet url])

/-- Bucket and key of every successful fput_object in a trace. -/
def objectsCreated (t : List Effect) : List (String × String) :=
  t.filterMap (fun e => match e with
    | .putObject b k true => some (b, k)
    | _ => none)

/-- Number of fput_object attempts (successful or not) in a trace. -/
def putAttempts (t : List Effect) : Nat :=
  (t.filter (fun e => match e with
    | .putObject _ _ _ => true
    | _ => false)).length

/-- Bucket and key of every fput_object attempt in a trace. -/
def putAttemptKeys (t : List Effect) : List (String × String) :=
  t.filterMap (fun e => match e with
    | .putObject b k _ => some (b, k)
    | _ => none)

/-- Number of containers.run start requests in a trace. -/
def countRun (t : List Effect) : Nat :=
  (t.filter (fun e => match e with
    | .dockerRun _ _ => true
    | _ => false)).length

/-- Number of containers.get queries in a trace. -/
def countGet (t : List Effect) : Nat :=
  (t.filter (fun e => match e with
    | .dockerGet _ => true
    | _ => false)).length

/-- Whether the trace wrote the local temp file. -/
def tempWritten (t : List Effect) : Bool :=
  t.any (fun e => match e with
    | .writeLocal _ => true
    | _ => false)

/-- Whether the trace removed the named local temp file. -/
def tempRemoved (file_name : String) (t : List Effect) : Bool :=
  t.any (fun e => match e with
    | .removeLocal f => f == file_name
    | _ => false)

example :
    download_file_from_http ⟨.status 200, true, .notFound, true, none, true⟩
      containers_init "/files/report.log" =
    (.value "nlp/report.log", containers_init,
      [.httpGet "http://localhost:8880/files/report.log",
       .writeLocal "report.log", .dockerGet "nlp",
       .dockerRun "thoth/nlp:latest" "nlp",
       .putObject "input" "nlp/report.log" true,
       .removeLocal "report.log"]) := by decide

example :
    download_file_from_http ⟨.status 200, true, .raised .connectionError, true, none, true⟩
      containers_init "/captures/capture.pcap" =
    (.pyNone, containers_init,
      [.httpGet "http://localhost:8880/captures/capture.pcap",
       .writeLocal "capture.pcap", .dockerGet "classic"]) := by decide

example :
    download_file_from_http ⟨.status 200, true, .found "running", true, none, true⟩
      containers_init "/d/data.csv" =
    (.value "ae/data.csv", containers_init,
      [.httpGet "http://localhost:8880/d/data.csv",
       .writeLocal "data.csv", .dockerGet "autoencoders",
       .putObject "input" "ae/data.csv" true,
       .removeLocal "data.csv"]) := by decide

example :
    download_file_from_http ⟨.status 200, true, .raised .dockerAPIError, true, none, true⟩
      containers_init "/d/data.csv" =
    (.uncaught .dockerAPIError, containers_init,
      [.httpGet "http://localhost:8880/d/data.csv",
       .writeLocal "data.csv", .dockerGet "autoencoders"]) := by decide

example :
    download_file_from_http ⟨.status 200, true, .raised .connectionError, true, none, true⟩
      containers_init "/d/notes.txt" =
    (.value "others/notes.txt", containers_init,
      [.httpGet "http://localhost:8880/d/notes.txt",
       .writeLocal "notes.txt",
       .putObject "input" "others/notes.txt" true,
       .removeLocal "notes.txt"]) := by decide

example :
    download_file_from_http ⟨.raised, true, .notFound, true, none, true⟩
      containers_init "/files/report.log" =
    (.pyNone, containers_init,
      [.httpGet "http://localhost:8880/files/report.log"]) := by decide

example :
    download_file_from_http ⟨.status 200, true, .notFound, false, some .s3Error, true⟩
      containers_init "/files/report.log" =
    (.uncaught .s3Error, containers_init,
      [.httpGet "http://localhost:8880/files/report.log",
       .writeLocal "report.log", .dockerGet "nlp",
       .dockerRun "thoth/nlp:latest" "nlp",
       .putObject "input" "nlp/report.log" false]) := by decide

example : classify "report.log" = .textLog := by decide
example : classify "A.PCAP" = .networkCapture := by decide
example : classify "x.CsV" = .tabular := by decide
example : classify ".log" = .unclassified := by decide
example : classify "noext" = .unclassified := by decide
example : basename "/files/report.log" = "report.log" := by decide
example : splitext_ext "file." = "." := by decide

/-- Lines 162-170 as a state transformer over the mutable state this
request flow has (the registry and the external-effect trace): the
classification block reads no global and performs no call, so it leaves
the state untouched and only computes the category. -/
def classifyStep (f : String) (st : ContainersDict × List Effect) :
    (ContainersDict × List Effect) × Category := (st, classify f)

/-- Claim C1: for every filename, classification is determined by the
extension of the filename compared case-insensitively (the extension is
lowered before the comparison): .pcap gives network-capture, .log gives
text-log, .csv gives tabular, and any other extension (including none)
gives unclassified; the code spells these categories as the target
folders ip, nlp, ae, others. -/
theorem C1_classify_by_extension (f : String) :
    classify f =
      (if pyLower (splitext_ext f) = ".pcap" then Category.networkCapture
       else if pyLower (splitext_ext f) = ".log" then Category.textLog
       else if pyLower (splitext_ext f) = ".csv" then Category.tabular
       else Category.unclassified) ∧
    target_folder_of f = folderName (classify f) ∧
    classify "x.PcAp" = Category.networkCapture ∧
    classify "x.LOG" = Category.textLog ∧
    classify "x.CSV" = Category.tabular ∧
    classify "x.txt" = Category.unclassified ∧
    classify "x" = Category.unclassified :=
  ⟨rfl, classify_folder f, by decide, by decide, by decide, by decide, by decide⟩

/-- Claim C9: classify is pure and deterministic: as a state transformer it
changes no state, and its result depends only on the lowered extension
of the filename, so repeated calls agree. -/
theorem C9_classify_pure (f g : String) (st : ContainersDict × List Effect)
    (h : pyLower (splitext_ext f) = pyLower (splitext_ext g)) :
    (classifyStep f st).1 = st ∧
    (classifyStep f st).2 = (classifyStep g st).2 := by
  refine ⟨rfl, ?_⟩
  simp only [classifyStep, classify, h]

/-- Witness for C9 at concrete inputs. -/
theorem C9_classify_pure_witness :
    (classifyStep "a.LOG" (containers_init, [])).1 = (containers_init, []) ∧
    (classifyStep "a.LOG" (containers_init, [])).2 =
      (classifyStep "b.log" (containers_init, [])).2 :=
  C9_classify_pure "a.LOG" "b.log" (containers_init, []) (by decide)

/-- Claim C5: when the remote fetch fails (network error or bad status raised
by raise_for_status) or returns a status other than 200, the handler
returns None and has performed no other effect: no temp file written,
no docker lookup or start, no object stored, registry unchanged. -/
theorem C5_fetch_failure_no_effect (w : World) (cs : ContainersDict)
    (p : String)
    (h : w.fetch = .raised ∨ ∃ c, w.fetch = .status c ∧ c ≠ 200) :
    (download_file_from_http w cs p).1 = .pyNone ∧
    (download_file_from_http w cs p).2.1 = cs ∧
    (download_file_from_http w cs p).2.2 = [.httpGet (root_url ++ p)] ∧
    tempWritten (download_file_from_http w cs p).2.2 = false ∧
    countGet (download_file_from_http w cs p).2.2 = 0 ∧
    countRun (download_file_from_http w cs p).2.2 = 0 ∧
    putAttempts (download_file_from_http w cs p).2.2 = 0 := by
  obtain ⟨fe, wo, lk, ro, up, rm⟩ := w
  rcases h with h | ⟨c, h, hc⟩ <;> simp only at h <;> subst h
  · simp [download_file_from_http, tempWritten, countGet, countRun,
      putAttempts]
  · simp [download_file_from_http, hc, tempWritten, countGet, countRun,
      putAttempts]

/-- Witness for C5: a failed fetch of a .log path. -/
theorem C5_fetch_failure_no_effect_witness :
    (download_file_from_http ⟨.raised, true, .notFound, true, none, true⟩
        containers_init "/x/a.log").1 = .pyNone ∧
    (download_file_from_http ⟨.raised, true, .notFound, true, none, true⟩
        containers_init "/x/a.log").2.1 = containers_init ∧
    (download_file_from_http ⟨.raised, true, .notFound, true, none, true⟩
        containers_init "/x/a.log").2.2 =
      [.httpGet (root_url ++ "/x/a.log")] ∧
    tempWritten (download_file_from_http
        ⟨.raised, true, .notFound, true, none, true⟩
        containers_init "/x/a.log").2.2 = false ∧
    countGet (download_file_from_http
        ⟨.raised, true, .notFound, true, none, true⟩
        containers_init "/x/a.log").2.2 = 0 ∧
    countRun (download_file_from_http
        ⟨.raised, true, .notFound, true, none, true⟩
        containers_init "/x/a.log").2.2 = 0 ∧
    putAttempts (download_file_from_http
        ⟨.raised, true, .notFound, true, none, true⟩
        containers_init "/x/a.log").2.2 = 0 :=
  C5_fetch_failure_no_effect _ containers_init "/x/a.log" (Or.inl rfl)

/-- Claim C6: when the store step succeeds (upload succeeds and the remove
succeeds), exactly one object is created, at key target_folder slash
file_name in the given bucket, the local temp file is deleted, and the
key is returned. -/
theorem C6_store_success (bucket tf fn : String) :
    (store none true bucket tf fn).1 = .success (tf ++ "/" ++ fn) ∧
    objectsCreated (store none true bucket tf fn).2 =
      [(bucket, tf ++ "/" ++ fn)] ∧
    putAttempts (store none true bucket tf fn).2 = 1 ∧
    tempRemoved fn (store none true bucket tf fn).2 = true := by
  simp [store, objectsCreated, putAttempts, tempRemoved]

/-- Claim C7: when the upload raises, the store step re-raises that exception
to its caller (for a MinIO-side failure this is the storage error), the
object is not created, exactly one upload attempt was made (no retry),
and the local temp file is not removed. -/
theorem C7_store_upload_failure (bucket tf fn : String) (e : PyExc)
    (r : Bool) :
    (store (some e) r bucket tf fn).1 = .raised e ∧
    objectsCreated (store (some e) r bucket tf fn).2 = [] ∧
    putAttempts (store (some e) r bucket tf fn).2 = 1 ∧
    tempRemoved fn (store (some e) r bucket tf fn).2 = false := by
  simp [store, objectsCreated, putAttempts, tempRemoved]

/-- Claim C8 (code bug): start_anoncontainer never records the started worker
in the registry, even when containers.run succeeds: line 100 assigns
containers[name] where name is unbound (the parameter is aname), so a
NameError is raised and swallowed by the blanket except; the registry
is returned unchanged while exactly one start request was issued. -/
theorem C8_registry_never_updated (cs : ContainersDict) (aname : String)
    (runOk : Bool) :
    (start_anoncontainer runOk aname cs).1 = cs ∧
    (start_anoncontainer runOk aname cs).2 =
      [.dockerRun (imageFor aname) aname] ∧
    (start_anoncontainer true "nlp" containers_init).1 = containers_init := by
  cases runOk <;> exact ⟨rfl, rfl, rfl⟩

/-- Claim C2: an ingest whose URL basename is report.log, with fetch, write,
upload and remove succeeding and the worker lookup not raising, stores
exactly one object at key nlp/report.log in bucket input and returns
that path; nlp is the folder the code uses for category text-log. -/
theorem C2_ingest_report_log (w : World) (cs : ContainersDict) (p : String)
    (hb : basename p = "report.log")
    (hf : w.fetch = .status 200) (hw : w.writeOk = true)
    (hl : w.lookup = .notFound ∨ ∃ s, w.lookup = .found s)
    (hu : w.upload = none) (hr : w.removeOk = true) :
    (download_file_from_http w cs p).1 = .value "nlp/report.log" ∧
    objectsCreated (download_file_from_http w cs p).2.2 =
      [("input", "nlp/report.log")] ∧
    tempRemoved "report.log" (download_file_from_http w cs p).2.2 = true ∧
    classify "report.log" = .textLog ∧ folderName .textLog = "nlp" := by
  obtain ⟨fe, wo, lk, ro, up, rm⟩ := w
  simp only at hf hw hu hr
  subst hf hw hu hr
  have ht : target_folder_of "report.log" = "nlp" := by decide
  have hm : container_mapping "nlp" = some "nlp" := by decide
  rcases hl with hl | ⟨s, hl⟩ <;> simp only at hl <;> subst hl
  · refine ⟨?_, ?_, ?_, by decide, rfl⟩ <;>
      simp [download_file_from_http, hb, ht, hm, store, handleIOExc,
        objectsCreated, tempRemoved, is_container_running,
        start_anoncontainer, globalName]
  · by_cases hs : s = "running" <;>
      refine ⟨?_, ?_, ?_, by decide, rfl⟩ <;>
      simp [download_file_from_http, hb, ht, hm, hs, store, handleIOExc,
        objectsCreated, tempRemoved, is_container_running,
        start_anoncontainer, globalName]

/-- Witness for C2: a fully successful ingest of /files/report.log with
the worker absent. -/
theorem C2_ingest_report_log_witness :
    (download_file_from_http ⟨.status 200, true, .notFound, true, none, true⟩
        containers_init "/files/report.log").1 = .value "nlp/report.log" ∧
    objectsCreated (download_file_from_http
        ⟨.status 200, true, .notFound, true, none, true⟩
        containers_init "/files/report.log").2.2 =
      [("input", "nlp/report.log")] ∧
    tempRemoved "report.log" (download_file_from_http
        ⟨.status 200, true, .notFound, true, none, true⟩
        containers_init "/files/report.log").2.2 = true ∧
    classify "report.log" = .textLog ∧ folderName .textLog = "nlp" :=
  C2_ingest_report_log _ containers_init "/files/report.log" (by decide)
    rfl rfl (Or.inl rfl) rfl rfl

/-- Claim C3 counterexample: ingesting capture.pcap with the worker runtime
unreachable (the containers.get call raises a connection error): the
handler catches it as an IOError and returns None; no upload is
attempted, so the upload does not proceed and does not succeed, against
the claim. -/
theorem C3_counterexample :
    (download_file_from_http
        ⟨.status 200, true, .raised .connectionError, true, none, true⟩
        containers_init "/captures/capture.pcap").1 = .pyNone ∧
    putAttempts (download_file_from_http
        ⟨.status 200, true, .raised .connectionError, true, none, true⟩
        containers_init "/captures/capture.pcap").2.2 = 0 ∧
    objectsCreated (download_file_from_http
        ⟨.status 200, true, .raised .connectionError, true, none, true⟩
        containers_init "/captures/capture.pcap").2.2 = [] := by decide

lemma worker_path_eval (lk : LookupOutcome) (ro : Bool) (up : Option PyExc)
    (rm : Bool) (cs : ContainersDict) (p tf cname : String)
    (htf : target_folder_of (basename p) = tf)
    (hm : container_mapping tf = some cname) :
    (lk = .notFound →
      putAttempts (download_file_from_http ⟨.status 200, true, lk, ro, up, rm⟩ cs p).2.2 = 1) ∧
    (∀ s, lk = .found s →
      putAttempts (download_file_from_http ⟨.status 200, true, lk, ro, up, rm⟩ cs p).2.2 = 1) ∧
    (∀ e, lk = .raised e →
      putAttempts (download_file_from_http ⟨.status 200, true, lk, ro, up, rm⟩ cs p).2.2 = 0 ∧
      (download_file_from_http ⟨.status 200, true, lk, ro, up, rm⟩ cs p).1 =
        (if isIOError e then Ret.pyNone else Ret.uncaught e)) := by
  refine ⟨fun hl => ?_, fun s hl => ?_, fun e hl => ?_⟩ <;> subst hl
  · cases up <;> cases rm <;>
      simp [download_file_from_http, htf, hm, store, handleIOExc,
        putAttempts, is_container_running, start_anoncontainer, globalName]
  · by_cases hs : s = "running" <;> cases up <;> cases rm <;>
      simp [download_file_from_http, htf, hm, hs, store, handleIOExc,
        putAttempts, is_container_running, start_anoncontainer, globalName]
  · cases hio : isIOError e <;>
      simp [download_file_from_http, htf, hm, hio, putAttempts,
        is_container_running]

/-- Claim C3 amended: for a classified file, a NotFound lookup and a failing
container start are swallowed and the upload still proceeds (exactly
one upload attempt, whatever the start outcome), and likewise when the
container is found; but a lookup that raises aborts the flow before any
upload: an IOError-class exception (such as the connection error of an
unreachable runtime) makes the handler return None, and any other
exception propagates to the caller. -/
theorem C3_amended_worker_failures (w : World) (cs : ContainersDict)
    (p : String)
    (hf : w.fetch = .status 200) (hw : w.writeOk = true)
    (hc : classify (basename p) ≠ Category.unclassified) :
    (w.lookup = .notFound →
      putAttempts (download_file_from_http w cs p).2.2 = 1) ∧
    (∀ s, w.lookup = .found s →
      putAttempts (download_file_from_http w cs p).2.2 = 1) ∧
    (∀ e, w.lookup = .raised e →
      putAttempts (download_file_from_http w cs p).2.2 = 0 ∧
      (download_file_from_http w cs p).1 =
        (if isIOError e then Ret.pyNone else Ret.uncaught e)) := by
  obtain ⟨fe, wo, lk, ro, up, rm⟩ := w
  simp only at hf hw
  subst hf hw
  have htf := classify_folder (basename p)
  cases hcl : classify (basename p) <;> rw [hcl] at htf <;>
    simp only [folderName] at htf
  case unclassified => exact absurd hcl hc
  · exact worker_path_eval lk ro up rm cs p "ip" "classic" htf (by decide)
  · exact worker_path_eval lk ro up rm cs p "nlp" "nlp" htf (by decide)
  · exact worker_path_eval lk ro up rm cs p "ae" "autoencoders" htf (by decide)

/-- Witness for C3 amended: worker absent and its start failing, the
upload is still attempted exactly once. -/
theorem C3_amended_worker_failures_witness :
    putAttempts (download_file_from_http
        ⟨.status 200, true, .notFound, false, none, true⟩
        containers_init "/captures/capture.pcap").2.2 = 1 :=
  (C3_amended_worker_failures _ containers_init "/captures/capture.pcap"
    rfl rfl (by decide)).1 rfl

lemma worker_start_count (lk : LookupOutcome) (ro : Bool) (up : Option PyExc)
    (rm : Bool) (cs : ContainersDict) (p tf cname : String)
    (htf : target_folder_of (basename p) = tf)
    (hm : container_mapping tf = some cname) :
    (lk = .found "running" →
      countRun (download_file_from_http ⟨.status 200, true, lk, ro, up, rm⟩ cs p).2.2 = 0) ∧
    (∀ s, lk = .found s → s ≠ "running" →
      countRun (download_file_from_http ⟨.status 200, true, lk, ro, up, rm⟩ cs p).2.2 = 1) ∧
    (lk = .notFound →
      countRun (download_file_from_http ⟨.status 200, true, lk, ro, up, rm⟩ cs p).2.2 = 1) := by
  refine ⟨fun hl => ?_, fun s hl hs => ?_, fun hl => ?_⟩ <;> subst hl
  · cases up <;> cases rm <;>
      simp [download_file_from_http, htf, hm, store, handleIOExc,
        countRun, is_container_running, start_anoncontainer, globalName]
  · cases up <;> cases rm <;>
      simp [download_file_from_http, htf, hm, hs, store, handleIOExc,
        countRun, is_container_running, start_anoncontainer, globalName]
  · cases up <;> cases rm <;>
      simp [download_file_from_http, htf, hm, store, handleIOExc,
        countRun, is_container_running, start_anoncontainer, globalName]

/-- Claim C4: for a classified file, the handler issues a start request
exactly when the runtime does not report the worker as running: a
lookup reporting status running issues no start, a lookup reporting any
other status issues exactly one start, and a NotFound lookup issues
exactly one start. -/
theorem C4_start_iff_not_running (w : World) (cs : ContainersDict)
    (p : String)
    (hf : w.fetch = .status 200) (hw : w.writeOk = true)
    (hc : classify (basename p) ≠ Category.unclassified) :
    (w.lookup = .found "running" →
      countRun (download_file_from_http w cs p).2.2 = 0) ∧
    (∀ s, w.lookup = .found s → s ≠ "running" →
      countRun (download_file_from_http w cs p).2.2 = 1) ∧
    (w.lookup = .notFound →
      countRun (download_file_from_http w cs p).2.2 = 1) := by
  obtain ⟨fe, wo, lk, ro, up, rm⟩ := w
  simp only at hf hw
  subst hf hw
  have htf := classify_folder (basename p)
  cases hcl : classify (basename p) <;> rw [hcl] at htf <;>
    simp only [folderName] at htf
  case unclassified => exact absurd hcl hc
  · exact worker_start_count lk ro up rm cs p "ip" "classic" htf (by decide)
  · exact worker_start_count lk ro up rm cs p "nlp" "nlp" htf (by decide)
  · exact worker_start_count lk ro up rm cs p "ae" "autoencoders" htf (by decide)

/-- Witness for C4: running worker gives no start request; absent
worker gives exactly one. -/
theorem C4_start_iff_not_running_witness :
    countRun (download_file_from_http
        ⟨.status 200, true, .found "running", true, none, true⟩
        containers_init "/f/a.pcap").2.2 = 0 ∧
    countRun (download_file_from_http
        ⟨.status 200, true, .notFound, true, none, true⟩
        containers_init "/f/a.pcap").2.2 = 1 :=
  ⟨(C4_start_iff_not_running _ containers_init "/f/a.pcap"
      rfl rfl (by decide)).1 rfl,
   (C4_start_iff_not_running _ containers_init "/f/a.pcap"
      rfl rfl (by decide)).2.2 rfl⟩

/-- Claim C10: when the basename classifies as unclassified, the handler
performs no container-runtime interaction at all (no lookup, no start)
and the upload is attempted directly at the others folder of bucket
input, others being the folder of the unclassified category. -/
theorem C10_unclassified_no_docker (w : World) (cs : ContainersDict)
    (p : String)
    (hf : w.fetch = .status 200) (hw : w.writeOk = true)
    (hc : classify (basename p) = Category.unclassified) :
    countGet (download_file_from_http w cs p).2.2 = 0 ∧
    countRun (download_file_from_http w cs p).2.2 = 0 ∧
    putAttemptKeys (download_file_from_http w cs p).2.2 =
      [("input", "others/" ++ basename p)] ∧
    folderName Category.unclassified = "others" := by
  obtain ⟨fe, wo, lk, ro, up, rm⟩ := w
  simp only at hf hw
  subst hf hw
  have htf := classify_folder (basename p)
  rw [hc] at htf
  simp only [folderName] at htf
  have hmo : container_mapping "others" = none := by decide
  have hk : ("others" : String) ++ "/" = "others/" := rfl
  refine ⟨?_, ?_, ?_, rfl⟩ <;>
    cases up <;> cases rm <;>
    simp [download_file_from_http, htf, hmo, store, handleIOExc,
      countGet, countRun, putAttemptKeys, hk]

/-- Witness for C10: ingesting notes.txt with a docker oracle that
would raise if consulted; no docker effect occurs and the upload goes
to the others folder. -/
theorem C10_unclassified_no_docker_witness :
    countGet (download_file_from_http
        ⟨.status 200, true, .raised .dockerAPIError, true, none, true⟩
        containers_init "/d/notes.txt").2.2 = 0 ∧
    countRun (download_file_from_http
        ⟨.status 200, true, .raised .dockerAPIError, true, none, true⟩
        containers_init "/d/notes.txt").2.2 = 0 ∧
    putAttemptKeys (download_file_from_http
        ⟨.status 200, true, .raised .dockerAPIError, true, none, true⟩
        containers_init "/d/notes.txt").2.2 =
      [("input", "others/" ++ basename "/d/notes.txt")] ∧
    folderName Category.unclassified = "others" :=
  C10_unclassified_no_docker _ containers_init "/d/notes.txt"
    rfl rfl (by decide)

end Engine
